import Mathlib

/-!
Shallow embedding of the horseCAD script-to-mesh pipeline
(src/horse-cad/src-tauri/src/lib.rs and src/utils/log_utils.rs).

The repository code is thin glue around the external fidget geometry
library.  We embed the repository's own control flow faithfully:

* `compile_rhai_script` registers two host capabilities, `set_scale` and
  `draw`, runs the script, and inspects a single-slot output cell and a
  scale cell.  We model one script execution as the list of host
  capability calls the engine makes (plus a possible engine-level
  failure), and replay the registered closures' logic over that list.
* `compile_script` is modelled path by path; the external fidget stages
  (`VmShape::new`, `Octree::build`, `walk_dual`, `write_stl`) are
  oracles supplied in an `ExternalOps` structure, since their code is
  not part of this repository.  The function additionally returns a
  trace of pipeline steps (log emissions, the applied transform, the
  octree build) so that ordering claims can be stated.
* Machine floats (`f32`/`f64`) are modelled as `ℚ`.  Every arithmetic
  operation the embedded code performs on them (division by a nonzero
  value, comparison against integer powers of 1024, negation) is exact
  in binary floating point at the ranges involved, except the `u64 →
  f64` conversion in `prettify_byte_count`, whose rounding cannot cross
  the integer thresholds 1024^k ≤ 2^30 ≪ 2^53 that the claims are about.
-/

namespace HorseCad

/-- Opaque identifier for a fidget `Tree` value delivered by a script's
`draw` call.  The repository never inspects trees; it only stores and
forwards them. -/
structure Tree where
  id : Nat
deriving DecidableEq, Repr

/-- One host-capability call made by a running Rhai script, as observed
by the closures registered in `compile_rhai_script`.

* `setScale v`: a `set_scale(x)` call; `v` is the result of
  `x.as_float()` (`none` when the argument is not a float).
* `draw t`: a `draw(x)` call; `t` is the result of
  `Tree::from_dynamic(x)` (`.error` when the conversion fails).
* `fail msg`: the engine itself raises an evaluation error (syntax,
  type, runtime) at this point of the run. -/
inductive ScriptEvent where
  | setScale (v : Option ℚ)
  | draw (t : Except String Tree)
  | fail (msg : String)

/-- Replay of `engine.run`: the registered closures' effect on the
output slot `out` (initially `None`) and the scale cell `sc`
(initially `1.0`).  The first error aborts the run, as `engine.run`
propagates the first `Err` from a registered function. -/
def runEvents : List ScriptEvent → Option Tree → ℚ → Except String (Option Tree × ℚ)
  | [], out, sc => .ok (out, sc)
  | .setScale v :: rest, out, sc =>
    match v with
    | some f => runEvents rest out f
    | none => .error "scale must be a float"
  | .draw t :: rest, out, sc =>
    match t with
    | .error e => .error e
    | .ok tree =>
      if out.isSome then .error "can only draw one shape"
      else runEvents rest (some tree) sc
  | .fail msg :: _, _, _ => .error msg

/-- `compile_rhai_script`: run the script, then take the output slot and
the scale cell; a missing output is the `NoOutputProduced`-class
failure.  On success the code imports the tree into a fresh `Context`;
we keep the tree itself as the root. -/
def compile_rhai_script (events : List ScriptEvent) : Except String (Tree × ℚ) :=
  match runEvents events none 1 with
  | .error e => .error e
  | .ok (out, sc) =>
    match out with
    | some tree => .ok (tree, sc)
    | none => .error "script must include a draw(tree) call"

/-- `Scale3::new(s, s, s).to_homogeneous()`: the 4×4 homogeneous matrix
of a uniform scaling. -/
def scaleHomogeneous (s : ℚ) : Matrix (Fin 4) (Fin 4) ℚ :=
  !![s, 0, 0, 0;
     0, s, 0, 0;
     0, 0, s, 0;
     0, 0, 0, 1]

/-- `Translation3::new(a, b, c).to_homogeneous()`: the 4×4 homogeneous
matrix of a translation. -/
def translationHomogeneous (a b c : ℚ) : Matrix (Fin 4) (Fin 4) ℚ :=
  !![1, 0, 0, a;
     0, 1, 0, b;
     0, 0, 1, c;
     0, 0, 0, 1]

/-- `MeshResult` as serialized back to the frontend.  STL bytes are a
list of byte values. -/
structure MeshResult where
  success : Bool
  stl_data : Option (List Nat)
  triangle_count : Option Nat
  error : Option String
deriving DecidableEq, Repr

/-- One observable step of `compile_script`:

* `emit delivered level message source`: one `emit_log` call;
  `delivered` is whether `app_handle.emit` succeeded (on failure the
  code only prints to stderr and continues).
* `appliedTransform t`: the `shape.apply_transform(t)` call.
* `octreeBuilt depth`: the `Octree::build` call. -/
inductive PipeStep where
  | emit (delivered : Bool) (level message source : String)
  | appliedTransform (t : Matrix (Fin 4) (Fin 4) ℚ)
  | octreeBuilt (depth : Nat)

/-- The external fidget stages used by `compile_script`, whose code is
not part of this repository.  They are supplied as oracles:

* `vmShapeNew`: `VmShape::new(&ctx, root)`, which may fail;
* `octreeBuild`: `Octree::build` on the transformed shape (the root
  tree together with the transform matrix applied to it) at the given
  depth, producing an opaque octree identifier — it has no error path;
* `walkDual`: `octree.walk_dual`, producing the list of triangles
  (opaque identifiers; only the length is inspected by the glue code);
* `exportStl`: `mesh.write_stl` into a memory buffer, which may fail. -/
structure ExternalOps where
  vmShapeNew : Tree → Except String Unit
  octreeBuild : Tree → Matrix (Fin 4) (Fin 4) ℚ → Nat → Nat
  walkDual : Nat → Nat → List Nat
  exportStl : List Nat → Except String (List Nat)

/-- `compile_script(app_handle, code, depth, scale, center)`.

`emitOk k` tells whether the `k`-th `app_handle.emit` call of this
invocation succeeds; `events` stands for the script source `code`
(the host-capability calls its evaluation performs).  Returns the
`MeshResult` together with the trace of pipeline steps.

Note: the Rust function's `scale` parameter is shadowed on the line
`let (ctx, root, scale) = match compile_rhai_script(&code)` before it
is ever read, so the caller-supplied scale does not occur in the body;
the model keeps the unused binder to mirror the source. -/
def compile_script (ops : ExternalOps) (emitOk : Nat → Bool)
    (events : List ScriptEvent) (depth : Nat) (scale : Option ℚ)
    (center : Option (ℚ × ℚ × ℚ)) : MeshResult × List PipeStep :=
  let c := center.getD (0, 0, 0)
  let l0 := [PipeStep.emit (emitOk 0) "info" "Starting script compilation" "Compiler"]
  match compile_rhai_script events with
  | .error e =>
    let msg := "Script compilation failed: " ++ e
    (⟨false, none, none, some msg⟩,
     l0 ++ [.emit (emitOk 1) "error" msg "Compiler"])
  | .ok (root, outScale) =>
    let l1 := l0 ++ [PipeStep.emit (emitOk 1) "info" "Script compiled successfully" "Compiler"]
    match ops.vmShapeNew root with
    | .error e =>
      let msg := "Shape creation failed: " ++ e
      (⟨false, none, none, some msg⟩,
       l1 ++ [.emit (emitOk 2) "error" msg "Compiler"])
    | .ok _ =>
      let l2 := l1 ++ [PipeStep.emit (emitOk 2) "info" "Shape created successfully" "Compiler"]
      let s := 1 / outScale
      let scale_transform := scaleHomogeneous s
      let center_transform := translationHomogeneous (-c.1) (-c.2.1) (-c.2.2)
      let t := center_transform * scale_transform
      let l3 := l2 ++ [PipeStep.emit (emitOk 3) "info" "Applying transformations" "Transform",
                       .appliedTransform t]
      let l4 := l3 ++ [PipeStep.emit (emitOk 4) "info" "Building octree" "Mesh"]
      let octree := ops.octreeBuild root t depth
      let l5 := l4 ++ [PipeStep.octreeBuilt depth,
                       .emit (emitOk 5) "info" "Octree construction complete" "Mesh"]
      let l6 := l5 ++ [PipeStep.emit (emitOk 6) "info" "Generating mesh triangles" "Mesh"]
      let mesh := ops.walkDual octree depth
      let triangle_count := mesh.length
      let l7 := l6 ++ [PipeStep.emit (emitOk 7) "info" "Mesh generation complete" "Mesh"]
      let l8 := l7 ++ [PipeStep.emit (emitOk 8) "info" "Exporting STL data" "Export"]
      match ops.exportStl mesh with
      | .error e =>
        let msg := "STL export failed: " ++ e
        (⟨false, none, some triangle_count, some msg⟩,
         l8 ++ [.emit (emitOk 9) "error" msg "Export"])
      | .ok data =>
        (⟨true, some data, some triangle_count, none⟩,
         l8 ++ [.emit (emitOk 9) "info" "STL export complete" "Export",
                .emit (emitOk 10) "info" "Mesh compilation completed successfully" "System"])

/-- The non-logging steps of a trace: geometry actions only. -/
def geomSteps (trace : List PipeStep) : List PipeStep :=
  trace.filter fun step =>
    match step with
    | .emit _ _ _ _ => false
    | _ => true

/-- The `while size >= 1024.0 && unit < units.len() - 1` loop of
`prettify_byte_count` (`units.len() - 1 = 3`).  `f64` division by 1024
is exact (power of two, no underflow at these magnitudes), so ℚ
replays it faithfully. -/
def prettifyLoop (size : ℚ) (unit : Nat) : ℚ × Nat :=
  if 1024 ≤ size ∧ unit < 3 then prettifyLoop (size / 1024) (unit + 1)
  else (size, unit)
termination_by 3 - unit
decreasing_by omega

/-- The `units` array of `prettify_byte_count`. -/
def prettifyUnits : List String := ["B", "KB", "MB", "GB"]

/-- `prettify_byte_count(number_of_bytes)`: the displayed value and the
unit it is rendered with.  The Rust function interpolates these into
the string `"{:.2} {}"`; we keep the pair.  The `u64 → f64` conversion
rounds only above `2^53`, far past every `1024^k` threshold the loop
compares against, so starting from the exact value changes no
comparison. -/
def prettify_byte_count (number_of_bytes : Nat) : ℚ × String :=
  let r := prettifyLoop (number_of_bytes : ℚ) 0
  (r.1, prettifyUnits.getD r.2 "")

/-- The number of times `n` can be divided by 1024 starting from a
value that is still at least 1024 (the claim's counting function). -/
def div1024Count (n : Nat) : Nat :=
  if h : 1024 ≤ n then div1024Count (n / 1024) + 1 else 0
termination_by n
decreasing_by exact Nat.div_lt_self (by omega) (by omega)

/-- The transforms a trace applies, in order. -/
def appliedTransforms (trace : List PipeStep) : List (Matrix (Fin 4) (Fin 4) ℚ) :=
  trace.filterMap fun step =>
    match step with
    | .appliedTransform t => some t
    | _ => none

/-- Whether the script makes any `set_scale` call. -/
def callsSetScale (events : List ScriptEvent) : Bool :=
  events.any fun e =>
    match e with
    | .setScale _ => true
    | _ => false

/-- A concrete instantiation of the external stages, for evaluating the
glue code on concrete inputs: shape creation and export succeed, and
the mesh has three triangles. -/
def sampleOps : ExternalOps :=
  ⟨fun _ => .ok (), fun _ _ _ => 0, fun _ _ => [5, 6, 7], fun m => .ok m⟩

/-- Like `sampleOps`, but STL export fails. -/
def exportFailOps : ExternalOps :=
  ⟨fun _ => .ok (), fun _ _ _ => 0, fun _ _ => [5, 6, 7], fun _ => .error "disk full"⟩

/-- C2: on every return path of `compile_script` (script failure,
shape-build failure, export failure, success), `stl_data` is present
iff `success` is true and `error` is present iff `success` is false. -/
theorem stl_and_error_presence_iff_success (ops : ExternalOps) (emitOk : Nat → Bool)
    (events : List ScriptEvent) (depth : Nat) (scale : Option ℚ)
    (center : Option (ℚ × ℚ × ℚ)) :
    ((compile_script ops emitOk events depth scale center).1.stl_data.isSome ↔
      (compile_script ops emitOk events depth scale center).1.success = true) ∧
    ((compile_script ops emitOk events depth scale center).1.error.isSome ↔
      (compile_script ops emitOk events depth scale center).1.success = false) := by
  unfold compile_script
  split
  · simp
  · split
    · simp
    · dsimp only
      split <;> simp

/-- C7: the `MeshResult` returned by `compile_script` does not depend
on whether any `emit_log` delivery succeeds: emit failures are
swallowed, never propagated into the pipeline's control flow. -/
theorem emit_outcome_does_not_affect_result (ops : ExternalOps)
    (emitOk emitOk' : Nat → Bool) (events : List ScriptEvent) (depth : Nat)
    (scale : Option ℚ) (center : Option (ℚ × ℚ × ℚ)) :
    (compile_script ops emitOk events depth scale center).1 =
      (compile_script ops emitOk' events depth scale center).1 := by
  unfold compile_script
  split
  · rfl
  · split
    · rfl
    · dsimp only
      split <;> rfl

/-- C1: the caller-supplied display scale is ignored by `compile_script`
(its `scale` parameter is shadowed by the script's output scale before
it is read), so the transform is built from the script's `set_scale`
value alone rather than from the composition the spec describes: the
whole result is independent of the caller scale, and for the script
`set_scale(2.0); draw(t)` invoked with caller scale `3.0` the applied
transform is translation by 0 times uniform scaling by `1/2` — the
caller's `3.0` never enters. -/
theorem caller_scale_ignored :
    (∀ (ops : ExternalOps) (emitOk : Nat → Bool) (events : List ScriptEvent)
        (depth : Nat) (s1 s2 : Option ℚ) (center : Option (ℚ × ℚ × ℚ)),
      compile_script ops emitOk events depth s1 center =
        compile_script ops emitOk events depth s2 center) ∧
    appliedTransforms
        (compile_script sampleOps (fun _ => true)
          [ScriptEvent.setScale (some 2), ScriptEvent.draw (.ok ⟨0⟩)] 4 (some 3) none).2 =
      [translationHomogeneous (-0) (-0) (-0) * scaleHomogeneous (1 / 2)] :=
  ⟨fun _ _ _ _ _ _ _ => rfl, rfl⟩

/-- Running a concatenation of capability-call lists runs the first
part, then the second from the state the first reached; the first
error wins. -/
theorem runEvents_append (l1 l2 : List ScriptEvent) (out : Option Tree) (sc : ℚ) :
    runEvents (l1 ++ l2) out sc =
      match runEvents l1 out sc with
      | .error e => .error e
      | .ok (o, s) => runEvents l2 o s := by
  induction l1 generalizing out sc with
  | nil => rfl
  | cons e rest ih =>
    cases e with
    | setScale v =>
      cases v with
      | some f => simpa [runEvents] using ih out f
      | none => simp [runEvents]
    | draw t =>
      cases t with
      | error msg => simp [runEvents]
      | ok tree =>
        by_cases h : out.isSome <;> simp [runEvents, h, ih]
    | fail msg => simp [runEvents]

/-- C4: a script whose run completes without error but never makes a
`draw` call produces `success = false`, the `NoOutputProduced`-class
message, no STL bytes and no triangle count — the pipeline stops
before any geometry stage. -/
theorem no_draw_yields_no_output_error (ops : ExternalOps) (emitOk : Nat → Bool)
    (events : List ScriptEvent) (depth : Nat) (scale : Option ℚ)
    (center : Option (ℚ × ℚ × ℚ)) (sc : ℚ)
    (hrun : runEvents events none 1 = .ok (none, sc)) :
    (compile_script ops emitOk events depth scale center).1 =
      ⟨false, none, none,
        some "Script compilation failed: script must include a draw(tree) call"⟩ := by
  simp [compile_script, compile_rhai_script, hrun]

/-- C4 witness: the empty script draws nothing and fails with the
`NoOutputProduced`-class message. -/
theorem no_draw_yields_no_output_error_witness :
    (compile_script sampleOps (fun _ => true) [] 4 none none).1 =
      ⟨false, none, none,
        some "Script compilation failed: script must include a draw(tree) call"⟩ :=
  no_draw_yields_no_output_error sampleOps (fun _ => true) [] 4 none none 1 rfl

/-- C5: once a run has accepted one `draw`, a second `draw` call fails
with the `MultipleOutputs`-class message, and `compile_script` on such
a script returns `success = false`, that message, and no STL bytes. -/
theorem second_draw_multiple_outputs (ops : ExternalOps) (emitOk : Nat → Bool)
    (depth : Nat) (scale : Option ℚ) (center : Option (ℚ × ℚ × ℚ))
    (pre rest : List ScriptEvent) (t1 t2 : Tree) (sc : ℚ)
    (hpre : runEvents pre none 1 = .ok (some t1, sc)) :
    runEvents (pre ++ ScriptEvent.draw (.ok t2) :: rest) none 1 =
      .error "can only draw one shape" ∧
    (compile_script ops emitOk (pre ++ ScriptEvent.draw (.ok t2) :: rest)
        depth scale center).1 =
      ⟨false, none, none, some "Script compilation failed: can only draw one shape"⟩ := by
  have h1 : runEvents (pre ++ ScriptEvent.draw (.ok t2) :: rest) none 1 =
      .error "can only draw one shape" := by
    rw [runEvents_append, hpre]
    simp [runEvents]
  exact ⟨h1, by simp [compile_script, compile_rhai_script, h1]⟩

/-- C5 witness: `draw(t); draw(t)` fails with the `MultipleOutputs`-class
message. -/
theorem second_draw_multiple_outputs_witness :
    runEvents [ScriptEvent.draw (.ok ⟨0⟩), ScriptEvent.draw (.ok ⟨0⟩)] none 1 =
      .error "can only draw one shape" ∧
    (compile_script sampleOps (fun _ => true)
        [ScriptEvent.draw (.ok ⟨0⟩), ScriptEvent.draw (.ok ⟨0⟩)] 4 none none).1 =
      ⟨false, none, none, some "Script compilation failed: can only draw one shape"⟩ :=
  second_draw_multiple_outputs sampleOps (fun _ => true) 4 none none
    [ScriptEvent.draw (.ok ⟨0⟩)] [] ⟨0⟩ ⟨0⟩ 1 rfl

/-- A run that makes no `set_scale` call leaves the scale cell at its
initial value. -/
theorem runEvents_scale_const (events : List ScriptEvent) (out o : Option Tree)
    (sc s : ℚ) (hns : callsSetScale events = false)
    (h : runEvents events out sc = .ok (o, s)) : s = sc := by
  induction events generalizing out sc with
  | nil =>
    simp [runEvents] at h
    exact h.2.symm
  | cons e rest ih =>
    cases e with
    | setScale v => simp [callsSetScale] at hns
    | draw t =>
      have hns' : callsSetScale rest = false := by
        simp [callsSetScale] at hns ⊢
        exact hns
      cases t with
      | error msg => simp [runEvents] at h
      | ok tree =>
        by_cases hout : out.isSome
        · simp [runEvents, hout] at h
        · simp [runEvents, hout] at h
          exact ih (some tree) sc hns' h
    | fail msg => simp [runEvents] at h

/-- C8: a script that runs successfully and never calls `set_scale`
yields output scale exactly 1 from `compile_rhai_script`. -/
theorem no_set_scale_output_scale_one (events : List ScriptEvent) (root : Tree)
    (outScale : ℚ) (hns : callsSetScale events = false)
    (hok : compile_rhai_script events = .ok (root, outScale)) : outScale = 1 := by
  unfold compile_rhai_script at hok
  cases h : runEvents events none 1 with
  | error e => rw [h] at hok; cases hok
  | ok p =>
    obtain ⟨o, s⟩ := p
    rw [h] at hok
    cases o with
    | none => simp at hok
    | some tree =>
      simp at hok
      rw [← hok.2]
      exact runEvents_scale_const events none (some tree) 1 s hns h

/-- C8 witness: the one-draw script with no `set_scale` call compiles
with output scale 1. -/
theorem no_set_scale_output_scale_one_witness : (1 : ℚ) = 1 :=
  no_set_scale_output_scale_one [ScriptEvent.draw (.ok ⟨0⟩)] ⟨0⟩ 1 rfl rfl

/-- C3: when the mesh stage has completed and STL export fails, the
result is `success = false`, no STL bytes, an error message, and the
triangle count of the computed mesh; when the pipeline fails before
meshing (script failure or shape-build failure), the triangle count is
absent. -/
theorem export_failure_reports_partial_count (ops : ExternalOps) (emitOk : Nat → Bool)
    (events : List ScriptEvent) (depth : Nat) (scale : Option ℚ)
    (center : Option (ℚ × ℚ × ℚ)) :
    (∀ root outScale err mesh,
      compile_rhai_script events = .ok (root, outScale) →
      ops.vmShapeNew root = .ok () →
      mesh = ops.walkDual
          (ops.octreeBuild root
            (translationHomogeneous (-(center.getD (0, 0, 0)).1)
                (-(center.getD (0, 0, 0)).2.1) (-(center.getD (0, 0, 0)).2.2) *
              scaleHomogeneous (1 / outScale))
            depth)
          depth →
      ops.exportStl mesh = .error err →
      (compile_script ops emitOk events depth scale center).1 =
        ⟨false, none, some mesh.length, some ("STL export failed: " ++ err)⟩) ∧
    (∀ e, compile_rhai_script events = .error e →
      (compile_script ops emitOk events depth scale center).1.triangle_count = none) ∧
    (∀ root outScale e, compile_rhai_script events = .ok (root, outScale) →
      ops.vmShapeNew root = .error e →
      (compile_script ops emitOk events depth scale center).1.triangle_count = none) := by
  refine ⟨?_, ?_, ?_⟩
  · intro root outScale err mesh hscript hshape hmesh hexp
    subst hmesh
    simp [compile_script, hscript, hshape, one_div] at hexp ⊢
    simp [hexp]
  · intro e hscript
    simp [compile_script, hscript]
  · intro root outScale e hscript hshape
    simp [compile_script, hscript, hshape]

/-- C3 witness: a one-draw script whose export stage fails reports the
three triangles that were meshed, no STL bytes, and the export error. -/
theorem export_failure_reports_partial_count_witness :
    (compile_script exportFailOps (fun _ => true) [ScriptEvent.draw (.ok ⟨0⟩)]
        2 none none).1 =
      ⟨false, none, some 3, some "STL export failed: disk full"⟩ :=
  (export_failure_reports_partial_count exportFailOps (fun _ => true)
      [ScriptEvent.draw (.ok ⟨0⟩)] 2 none none).1
    ⟨0⟩ 1 "disk full" [5, 6, 7] rfl rfl rfl rfl

/-- C6: on every run that reaches the geometry stage, the pipeline's
non-logging steps are exactly one transform application followed by
the octree build; the transform is the single homogeneous matrix
`translation(-center) * scaling(1/scale)`, and acting on a point it
scales the coordinates first and translates second. -/
theorem transform_composition_and_single_application (ops : ExternalOps)
    (emitOk : Nat → Bool) (events : List ScriptEvent) (depth : Nat)
    (scale : Option ℚ) (c0 c1 c2 x y z : ℚ) (root : Tree) (outScale : ℚ)
    (hscript : compile_rhai_script events = .ok (root, outScale))
    (hshape : ops.vmShapeNew root = .ok ()) :
    geomSteps (compile_script ops emitOk events depth scale (some (c0, c1, c2))).2 =
      [PipeStep.appliedTransform
          (translationHomogeneous (-c0) (-c1) (-c2) * scaleHomogeneous (1 / outScale)),
        PipeStep.octreeBuilt depth] ∧
    (translationHomogeneous (-c0) (-c1) (-c2) *
          scaleHomogeneous (1 / outScale)).mulVec ![x, y, z, 1] =
      ![(1 / outScale) * x - c0, (1 / outScale) * y - c1, (1 / outScale) * z - c2, 1] := by
  constructor
  · unfold compile_script
    simp only [hscript, hshape]
    split <;> simp [geomSteps]
  · funext i
    fin_cases i <;>
      simp [Matrix.mulVec, Matrix.dotProduct, Matrix.mul_apply, Fin.sum_univ_four,
        translationHomogeneous, scaleHomogeneous, Matrix.cons_val_zero,
        Matrix.cons_val_one, Matrix.cons_val_two, Matrix.cons_val_three,
        Matrix.head_cons, Matrix.tail_cons] <;> ring

/-- C6 witness: for the one-draw script (output scale 1), center
(1, 2, 3) and the point (4, 5, 6), the trace shows one transform
application before the octree build, and the matrix sends
(4, 5, 6, 1) to (4 - 1, 5 - 2, 6 - 3, 1). -/
theorem transform_composition_and_single_application_witness :
    geomSteps (compile_script sampleOps (fun _ => true) [ScriptEvent.draw (.ok ⟨0⟩)]
        2 none (some (1, 2, 3))).2 =
      [PipeStep.appliedTransform
          (translationHomogeneous (-1) (-2) (-3) * scaleHomogeneous (1 / 1)),
        PipeStep.octreeBuilt 2] ∧
    (translationHomogeneous (-1) (-2) (-3) * scaleHomogeneous (1 / 1)).mulVec
        ![4, 5, 6, 1] =
      ![(1 / 1) * 4 - 1, (1 / 1) * 5 - 2, (1 / 1) * 6 - 3, 1] :=
  transform_composition_and_single_application sampleOps (fun _ => true)
    [ScriptEvent.draw (.ok ⟨0⟩)] 2 none 1 2 3 4 5 6 ⟨0⟩ 1 rfl rfl

theorem div1024Count_of_lt (n : Nat) (h : n < 1024) : div1024Count n = 0 := by
  rw [div1024Count]
  simp [Nat.not_le.mpr h]

theorem div1024Count_of_le (n : Nat) (h : 1024 ≤ n) :
    div1024Count n = div1024Count (n / 1024) + 1 := by
  conv_lhs => rw [div1024Count]
  simp [h]

theorem prettifyLoop_stop (size : ℚ) (unit : Nat) (h : ¬(1024 ≤ size ∧ unit < 3)) :
    prettifyLoop size unit = (size, unit) := by
  rw [prettifyLoop]
  simp [h]

theorem prettifyLoop_step (size : ℚ) (unit : Nat) (h1 : 1024 ≤ size) (h2 : unit < 3) :
    prettifyLoop size unit = prettifyLoop (size / 1024) (unit + 1) := by
  conv_lhs => rw [prettifyLoop]
  simp [h1, h2]

/-- Evaluation of the `prettify_byte_count` loop over the four
magnitude intervals. -/
theorem prettifyLoop_eval (n : Nat) :
    prettifyLoop (n : ℚ) 0 =
      if n < 1024 then ((n : ℚ), 0)
      else if n < 1024 * 1024 then ((n : ℚ) / 1024, 1)
      else if n < 1024 * 1024 * 1024 then ((n : ℚ) / 1024 / 1024, 2)
      else ((n : ℚ) / 1024 / 1024 / 1024, 3) := by
  rcases lt_or_le n 1024 with h1 | h1
  · rw [if_pos h1, prettifyLoop_stop]
    intro hc
    have : (n : ℚ) < 1024 := by exact_mod_cast h1
    linarith [hc.1]
  · have hq1 : (1024 : ℚ) ≤ (n : ℚ) := by exact_mod_cast h1
    rw [if_neg (Nat.not_lt.mpr h1), prettifyLoop_step _ _ hq1 (by omega)]
    rcases lt_or_le n (1024 * 1024) with h2 | h2
    · have hq2 : (n : ℚ) / 1024 < 1024 := by
        rw [div_lt_iff (by norm_num : (0:ℚ) < 1024)]
        exact_mod_cast h2
      rw [if_pos h2, prettifyLoop_stop]
      intro hc
      linarith [hc.1]
    · have hq2 : (1024 : ℚ) ≤ (n : ℚ) / 1024 := by
        rw [le_div_iff (by norm_num : (0:ℚ) < 1024)]
        exact_mod_cast h2
      rw [if_neg (Nat.not_lt.mpr h2), prettifyLoop_step _ _ hq2 (by omega)]
      rcases lt_or_le n (1024 * 1024 * 1024) with h3 | h3
      · have hq3 : (n : ℚ) / 1024 / 1024 < 1024 := by
          rw [div_lt_iff (by norm_num : (0:ℚ) < 1024),
            div_lt_iff (by norm_num : (0:ℚ) < 1024)]
          exact_mod_cast h3
        rw [if_pos h3, prettifyLoop_stop]
        intro hc
        linarith [hc.1]
      · have hq3 : (1024 : ℚ) ≤ (n : ℚ) / 1024 / 1024 := by
          rw [le_div_iff (by norm_num : (0:ℚ) < 1024),
            le_div_iff (by norm_num : (0:ℚ) < 1024)]
          exact_mod_cast h3
        rw [if_neg (Nat.not_lt.mpr h3), prettifyLoop_step _ _ hq3 (by omega),
          prettifyLoop_stop]
        omega

/-- Evaluation of the claim's counting function, capped at 3, over the
same four intervals. -/
theorem div1024Count_eval (n : Nat) :
    min (div1024Count n) 3 =
      if n < 1024 then 0
      else if n < 1024 * 1024 then 1
      else if n < 1024 * 1024 * 1024 then 2
      else 3 := by
  rcases lt_or_le n 1024 with h1 | h1
  · rw [if_pos h1, div1024Count_of_lt n h1]
    omega
  · rw [if_neg (Nat.not_lt.mpr h1), div1024Count_of_le n h1]
    rcases lt_or_le n (1024 * 1024) with h2 | h2
    · have : n / 1024 < 1024 := Nat.div_lt_of_lt_mul h2
      rw [if_pos h2, div1024Count_of_lt _ this]
      omega
    · have h2' : 1024 ≤ n / 1024 := Nat.le_div_iff_mul_le (by omega) |>.mpr (by omega)
      rw [if_neg (Nat.not_lt.mpr h2), div1024Count_of_le _ h2']
      rcases lt_or_le n (1024 * 1024 * 1024) with h3 | h3
      · have : n / 1024 / 1024 < 1024 := by
          rw [Nat.div_div_eq_div_mul]
          exact Nat.div_lt_of_lt_mul (by omega)
        rw [if_pos h3, div1024Count_of_lt _ this]
        omega
      · have h3' : 1024 ≤ n / 1024 / 1024 := by
          rw [Nat.div_div_eq_div_mul]
          exact Nat.le_div_iff_mul_le (by omega) |>.mpr (by omega)
        rw [if_neg (Nat.not_lt.mpr h3), div1024Count_of_le _ h3']
        omega

/-- C10: `prettify_byte_count` renders with exactly one of the four
units; the unit index is the claim's 1024-halving count capped at 3
(GB); the displayed value is below 1024 whenever the unit is not GB;
and every input below 1024 is rendered in the B unit (unchanged). -/
theorem prettify_byte_count_correct (n : Nat) :
    (prettify_byte_count n).2 = prettifyUnits.getD (min (div1024Count n) 3) "" ∧
    ((prettify_byte_count n).2 = "B" ∨ (prettify_byte_count n).2 = "KB" ∨
      (prettify_byte_count n).2 = "MB" ∨ (prettify_byte_count n).2 = "GB") ∧
    ((prettify_byte_count n).2 ≠ "GB" → (prettify_byte_count n).1 < 1024) ∧
    (n < 1024 → (prettify_byte_count n).2 = "B" ∧ (prettify_byte_count n).1 = n) := by
  rcases lt_or_le n 1024 with h1 | h1
  · have hpl : prettifyLoop (n : ℚ) 0 = ((n : ℚ), 0) := by
      rw [prettifyLoop_eval, if_pos h1]
    have hmin : min (div1024Count n) 3 = 0 := by
      rw [div1024Count_eval, if_pos h1]
    have hv : (n : ℚ) < 1024 := by exact_mod_cast h1
    simp [prettify_byte_count, hpl, hmin, prettifyUnits, hv]
  · have hn1 : ¬ n < 1024 := Nat.not_lt.mpr h1
    rcases lt_or_le n (1024 * 1024) with h2 | h2
    · have hpl : prettifyLoop (n : ℚ) 0 = ((n : ℚ) / 1024, 1) := by
        rw [prettifyLoop_eval, if_neg hn1, if_pos h2]
      have hmin : min (div1024Count n) 3 = 1 := by
        rw [div1024Count_eval, if_neg hn1, if_pos h2]
      have hv : (n : ℚ) / 1024 < 1024 := by
        rw [div_lt_iff (by norm_num : (0:ℚ) < 1024)]
        exact_mod_cast h2
      simp [prettify_byte_count, hpl, hmin, prettifyUnits, hv, hn1]
    · have hn2 : ¬ n < 1024 * 1024 := Nat.not_lt.mpr h2
      rcases lt_or_le n (1024 * 1024 * 1024) with h3 | h3
      · have hpl : prettifyLoop (n : ℚ) 0 = ((n : ℚ) / 1024 / 1024, 2) := by
          rw [prettifyLoop_eval, if_neg hn1, if_neg hn2, if_pos h3]
        have hmin : min (div1024Count n) 3 = 2 := by
          rw [div1024Count_eval, if_neg hn1, if_neg hn2, if_pos h3]
        have hv : (n : ℚ) / 1024 / 1024 < 1024 := by
          rw [div_lt_iff (by norm_num : (0:ℚ) < 1024),
            div_lt_iff (by norm_num : (0:ℚ) < 1024)]
          exact_mod_cast h3
        simp [prettify_byte_count, hpl, hmin, prettifyUnits, hv, hn1]
      · have hn3 : ¬ n < 1024 * 1024 * 1024 := Nat.not_lt.mpr h3
        have hpl : prettifyLoop (n : ℚ) 0 = ((n : ℚ) / 1024 / 1024 / 1024, 3) := by
          rw [prettifyLoop_eval, if_neg hn1, if_neg hn2, if_neg hn3]
        have hmin : min (div1024Count n) 3 = 3 := by
          rw [div1024Count_eval, if_neg hn1, if_neg hn2, if_neg hn3]
        simp [prettify_byte_count, hpl, hmin, prettifyUnits, hn1]

/-- C10 witness: 1 048 575 bytes has capped halving count 1, is
rendered in the KB unit, and its displayed value is below 1024. -/
theorem prettify_byte_count_correct_witness :
    min (div1024Count 1048575) 3 = 1 ∧
    (prettify_byte_count 1048575).2 = "KB" ∧
    (prettify_byte_count 1048575).1 < 1024 := by
  have hmin : min (div1024Count 1048575) 3 = 1 := by
    rw [div1024Count_eval]
    norm_num
  have h := prettify_byte_count_correct 1048575
  have hunit : (prettify_byte_count 1048575).2 = "KB" := by
    rw [h.1, hmin]
    rfl
  exact ⟨hmin, hunit, h.2.2.1 (by rw [hunit]; simp)⟩

end HorseCad
